import Mathlib

/-!
Shallow embedding of the enterprise workspace-manager operations of
`components/ws-manager/pkg/manager/manager_ee.go` (TakeSnapshot,
GetVolumeSnapshot, ControlAdmission, SetTimeout, BackupWorkspace).

Helper routines that live outside the reviewed file (pod lookup, status
derivation, daemon connection, annotation marking, snapshot creation and
readiness polling, duration parsing) are modelled as oracle fields of a
`ManagerEnv` record: the theorems quantify over every behaviour of those
helpers. Each operation returns its result together with the list of
side effects (mutations, daemon calls) it performed, in order.
-/

/-- The gRPC status codes used by the manager (google.golang.org/grpc/codes). -/
inductive Code
  | ok
  | cancelled
  | unknown
  | invalidArgument
  | deadlineExceeded
  | notFound
  | alreadyExists
  | failedPrecondition
  | internal
  | unavailable
  deriving DecidableEq, Repr

/-- An error value as the Go code returns it: either a gRPC status error
(`status.Errorf`) carrying a code, or a plain wrapped error (`xerrors.Errorf`),
which the gRPC layer classifies as `Unknown`. -/
inductive WsError
  | grpc (code : Code) (msg : String)
  | plain (msg : String)
  deriving DecidableEq, Repr

/-- Go `status.Code(err)`: the code of a status error, `Unknown` for any other
non-nil error. -/
def WsError.statusCode : WsError → Code
  | .grpc c _ => c
  | .plain _ => Code.unknown

/-- The message carried by an error (used when an error is rewrapped with a format verb). -/
def WsError.message : WsError → String
  | .grpc _ m => m
  | .plain m => m

/-- A cluster pod as the manager sees it: name, labels and annotations. -/
structure Pod where
  name : String
  labels : List (String × String)
  annotations : List (String × String)
  deriving DecidableEq, Repr

/-- Lookup of a key in a label/annotation list (Go map indexing). -/
def lookupKey (kvs : List (String × String)) (k : String) : Option String :=
  (kvs.find? (fun kv => kv.1 == k)).map (fun kv => kv.2)

/-- Modelled from the spec: the workspace phase enumeration of the ws-manager
API (the proto definition is outside the reviewed source). The spec names
`CREATING -> RUNNING -> STOPPING -> STOPPED` as the states relevant to this
core, "at least"; the remaining wire values are included for completeness. -/
inductive WorkspacePhase
  | UNKNOWN
  | PENDING
  | CREATING
  | INITIALIZING
  | RUNNING
  | INTERRUPTED
  | STOPPING
  | STOPPED
  deriving DecidableEq, Repr

/-- The view of a pod plus associated objects (`workspaceObjects`); only the
pod is consulted by the operations embedded here. -/
structure WorkspaceObjects where
  pod : Pod
  deriving DecidableEq, Repr

/-- Modelled from the spec: `wso.WorkspaceID()` derives the workspace ID from
the backing object's metadata (its definition is outside the reviewed source);
the caller in TakeSnapshot discards its error, so a failed derivation yields
the zero value. We read it from a dedicated annotation. -/
def workspaceIDAnnotation : String := "gitpod/id"

/-- Modelled from the spec: the workspace ID derived from the objects, empty
string when the derivation fails (TakeSnapshot ignores the error return). -/
def WorkspaceObjects.workspaceID (wso : WorkspaceObjects) : String :=
  (lookupKey wso.pod.annotations workspaceIDAnnotation).getD ""

/-- The status derived from the workspace objects; only the phase is consulted
by the operations embedded here. -/
structure WorkspaceStatus where
  phase : WorkspacePhase
  deriving DecidableEq, Repr

/-- Modelled from the spec: the pod label marking a PVC-feature workspace
(`pvcWorkspaceFeatureLabel`, defined outside the reviewed source). Only key
presence is consulted. -/
def pvcWorkspaceFeatureLabel : String := "gitpod.io/pvcFeature"

/-- Modelled from the spec: the pod label naming the workspace class
(`workspaceClassLabel`, defined outside the reviewed source). -/
def workspaceClassLabel : String := "gitpod.io/workspaceClass"

/-- Modelled from the spec: the annotation key for the admission level
(`kubernetes.WorkspaceAdmissionAnnotation`, defined outside the reviewed source). -/
def workspaceAdmissionAnnotation : String := "gitpod.io/admission"

/-- Modelled from the spec: the annotation key for the custom timeout
(`customTimeoutAnnotation`, defined outside the reviewed source). -/
def customTimeoutAnnotation : String := "gitpod.io/customTimeout"

/-- PVC section of a workspace class configuration (`.PVC.SnapshotClass`). -/
structure PVCConfig where
  snapshotClass : String
  deriving DecidableEq, Repr

/-- A workspace class configuration as resolved from `m.Config.WorkspaceClasses`. -/
structure WorkspaceClassConfig where
  pvc : PVCConfig
  deriving DecidableEq, Repr

/-- Modelled from the spec: the API admission-level enumeration
(`api.AdmissionLevel_name`, generated code outside the reviewed source): the
recognized values are Owner and Everyone, mapped to their names; every other
wire value is unrecognized. -/
def AdmissionLevel_name : Int → Option String
  | 0 => some "OWNER"
  | 1 => some "EVERYONE"
  | _ => none

/-- Go `strings.ToLower` as used on the level name: lower-case every
character (rune-wise mapping). -/
def stringToLower (s : String) : String := ⟨s.data.map Char.toLower⟩

/-- Result of `m.findWorkspacePod` combined with the
`isKubernetesObjNotFoundError` test the callers apply to its error. -/
inductive FindPodResult
  | found (pod : Pod)
  | notFound
  | failed (msg : String)
  deriving Repr

/-- A connection to the node-local daemon: the two RPCs the manager invokes.
An RPC either fails with an error (already a gRPC error) or returns a URL. -/
structure DaemonConn where
  takeSnapshot : String → Bool → Except WsError String
  backupWorkspace : String → Except WsError String

/-- One observable side effect of an operation, in the order performed. -/
inductive Effect
  | createVolumeSnapshot (pvcName snapshotName snapshotClass workspaceID : String)
      (labels : List (String × String))
  | waitForSnapshotReady (snapshotName : String)
  | connectDaemon (podName : String)
  | daemonTakeSnapshot (id : String) (returnImmediately : Bool)
  | daemonBackup (id : String)
  | mark (id : String) (key : String) (value : String)
  deriving DecidableEq, Repr

/-- The manager together with the helpers it calls, as oracles: each field
models one routine defined outside the reviewed file, quantified over in the
theorems. `nowUnixNano` is the value `time.Now().UnixNano()` reads during the
call. -/
structure ManagerEnv where
  findWorkspacePod : String → FindPodResult
  getWorkspaceObjects : Pod → Except String WorkspaceObjects
  getWorkspaceStatus : WorkspaceObjects → Except String WorkspaceStatus
  workspaceClasses : String → Option WorkspaceClassConfig
  createWorkspaceSnapshotFromPVC :
    String → String → String → String → List (String × String) → Option String
  waitForWorkspaceVolumeSnapshotReady : String → Except String Bool
  connectToWorkspaceDaemon : Pod → Except String DaemonConn
  markWorkspace : String → String → String → Option String
  checkWorkspaceVolumeSnapshotIsReady : String → Except WsError Bool
  parseDuration : String → Option String
  nowUnixNano : Nat

/-- Request of TakeSnapshot: workspace ID and the ReturnImmediately flag. -/
structure TakeSnapshotRequest where
  id : String
  returnImmediately : Bool
  deriving DecidableEq, Repr

/-- Response of TakeSnapshot: the backup locator URL. -/
structure TakeSnapshotResponse where
  url : String
  deriving DecidableEq, Repr

/-- The snapshot-class resolution of TakeSnapshot: the workspace class named
by the pod's class label, resolved in the manager configuration; empty when
the label is absent or the class unknown. -/
def resolveSnapshotClass (m : ManagerEnv) (pod : Pod) : String :=
  match lookupKey pod.labels workspaceClassLabel with
  | some wsClassName =>
    match m.workspaceClasses wsClassName with
    | some workspaceClass => workspaceClass.pvc.snapshotClass
    | none => ""
  | none => ""

/-- The volume-snapshot name TakeSnapshot generates:
`fmt.Sprintf("snapshot-%s-%d", workspaceID, time.Now().UnixNano())`. -/
def snapshotName (workspaceID : String) (nano : Nat) : String :=
  "snapshot-" ++ workspaceID ++ "-" ++ Nat.repr nano

/-- TakeSnapshot (manager_ee.go): resolve the pod, derive status, require
phase RUNNING, then either create a volume snapshot (PVC feature label
present) — optionally waiting for readiness — or delegate to the daemon. -/
def TakeSnapshot (m : ManagerEnv) (req : TakeSnapshotRequest) :
    Except WsError TakeSnapshotResponse × List Effect :=
  match m.findWorkspacePod req.id with
  | .notFound =>
    (.error (.grpc .notFound ("workspace " ++ req.id ++ " does not exist")), [])
  | .failed e =>
    (.error (.grpc .internal ("cannot get workspace status: " ++ e)), [])
  | .found pod =>
    match m.getWorkspaceObjects pod with
    | .error e =>
      (.error (.grpc .internal ("cannot get workspace status: " ++ e)), [])
    | .ok wso =>
      match m.getWorkspaceStatus wso with
      | .error e =>
        (.error (.grpc .internal ("cannot get workspace status: " ++ e)), [])
      | .ok sts =>
        if sts.phase ≠ WorkspacePhase.RUNNING then
          (.error (.grpc .failedPrecondition "can only take snapshots of running workspaces"), [])
        else
          let pvcFeatureEnabled := (lookupKey wso.pod.labels pvcWorkspaceFeatureLabel).isSome
          let pvcVolumeSnapshotClassName := resolveSnapshotClass m wso.pod
          if pvcFeatureEnabled then
            let workspaceID := wso.workspaceID
            let pvcVolumeSnapshotName := snapshotName workspaceID m.nowUnixNano
            let pvcName := wso.pod.name
            let effs := [Effect.createVolumeSnapshot pvcName pvcVolumeSnapshotName
              pvcVolumeSnapshotClassName workspaceID wso.pod.labels]
            match m.createWorkspaceSnapshotFromPVC pvcName pvcVolumeSnapshotName
                pvcVolumeSnapshotClassName workspaceID wso.pod.labels with
            | some e =>
              (.error (.grpc .internal ("cannot create volume snapshot from pvc: " ++ e)), effs)
            | none =>
              if !req.returnImmediately then
                let effs := effs ++ [Effect.waitForSnapshotReady pvcVolumeSnapshotName]
                match m.waitForWorkspaceVolumeSnapshotReady pvcVolumeSnapshotName with
                | .error e =>
                  (.error (.grpc .internal
                    ("cannot wait for volume snapshot to be ready: " ++ e)), effs)
                | .ok ready =>
                  if !ready then
                    (.error (.grpc .internal "volume snapshot is not ready"), effs)
                  else
                    (.ok ⟨pvcVolumeSnapshotName⟩, effs)
              else
                (.ok ⟨pvcVolumeSnapshotName⟩, effs)
          else
            match m.connectToWorkspaceDaemon pod with
            | .error e =>
              (.error (.grpc .unavailable ("cannot connect to workspace daemon: " ++ e)),
                [Effect.connectDaemon pod.name])
            | .ok sync =>
              let effs := [Effect.connectDaemon pod.name,
                Effect.daemonTakeSnapshot req.id req.returnImmediately]
              match sync.takeSnapshot req.id req.returnImmediately with
              | .error e => (.error e, effs)
              | .ok url => (.ok ⟨url⟩, effs)

/-- Request of GetVolumeSnapshot: the volume-snapshot ID. -/
structure GetVolumeSnapshotRequest where
  id : String
  deriving DecidableEq, Repr

/-- Response of GetVolumeSnapshot: the ID and its readiness. -/
structure GetVolumeSnapshotResponse where
  id : String
  ready : Bool
  deriving DecidableEq, Repr

/-- GetVolumeSnapshot (manager_ee.go): a readiness query with no pod lookup
and no side effect; a NotFound-coded check error is surfaced as NotFound, any
other as Internal. -/
def GetVolumeSnapshot (m : ManagerEnv) (req : GetVolumeSnapshotRequest) :
    Except WsError GetVolumeSnapshotResponse :=
  match m.checkWorkspaceVolumeSnapshotIsReady req.id with
  | .error err =>
    if err.statusCode = Code.notFound then
      .error (.grpc .notFound ("volume snapshot " ++ req.id ++ " does not exist"))
    else
      .error (.grpc .internal
        ("cannot check if volume snapshot is ready: " ++ err.message))
  | .ok ready => .ok ⟨req.id, ready⟩

/-- Request of ControlAdmission: workspace ID and the admission-level wire value. -/
structure ControlAdmissionRequest where
  id : String
  level : Int
  deriving DecidableEq, Repr

/-- ControlAdmission (manager_ee.go): resolve the pod, derive status, reject
STOPPING/STOPPED with FailedPrecondition, then validate the level against the
enumeration, lower-case its name and mark the workspace with the admission
annotation. -/
def ControlAdmission (m : ManagerEnv) (req : ControlAdmissionRequest) :
    Except WsError Unit × List Effect :=
  match m.findWorkspacePod req.id with
  | .notFound =>
    (.error (.grpc .notFound ("workspace " ++ req.id ++ " does not exist")), [])
  | .failed e =>
    (.error (.grpc .internal ("cannot get workspace status: " ++ e)), [])
  | .found pod =>
    match m.getWorkspaceObjects pod with
    | .error e =>
      (.error (.grpc .internal ("cannot get workspace status: " ++ e)), [])
    | .ok wso =>
      match m.getWorkspaceStatus wso with
      | .error e =>
        (.error (.grpc .internal ("cannot get workspace status: " ++ e)), [])
      | .ok sts =>
        if sts.phase = WorkspacePhase.STOPPING ∨ sts.phase = WorkspacePhase.STOPPED then
          (.error (.grpc .failedPrecondition "cannot control admission of stopping workspaces"), [])
        else
          match AdmissionLevel_name req.level with
          | none => (.error (.grpc .invalidArgument "invalid admission level"), [])
          | some val =>
            let val := stringToLower val
            match m.markWorkspace req.id workspaceAdmissionAnnotation val with
            | some e =>
              (.error (.grpc .internal ("cannot change workspace admission level: " ++ e)),
                [Effect.mark req.id workspaceAdmissionAnnotation val])
            | none => (.ok (), [Effect.mark req.id workspaceAdmissionAnnotation val])

/-- Request of SetTimeout: workspace ID and the duration string. -/
structure SetTimeoutRequest where
  id : String
  duration : String
  deriving DecidableEq, Repr

/-- SetTimeout (manager_ee.go): parse the duration, then mark the workspace
with the custom-timeout annotation. There is no pod lookup; both failure paths
return plain wrapped errors (`xerrors.Errorf`), not gRPC status errors. -/
def SetTimeout (m : ManagerEnv) (req : SetTimeoutRequest) :
    Except WsError Unit × List Effect :=
  match m.parseDuration req.duration with
  | some e =>
    (.error (.plain ("invalid duration \"" ++ req.duration ++ "\": " ++ e)), [])
  | none =>
    match m.markWorkspace req.id customTimeoutAnnotation req.duration with
    | some e =>
      (.error (.plain ("cannot set workspace timeout: " ++ e)),
        [Effect.mark req.id customTimeoutAnnotation req.duration])
    | none => (.ok (), [Effect.mark req.id customTimeoutAnnotation req.duration])

/-- Request of BackupWorkspace: the workspace ID. -/
structure BackupWorkspaceRequest where
  id : String
  deriving DecidableEq, Repr

/-- Response of BackupWorkspace: the backup locator URL. -/
structure BackupWorkspaceResponse where
  url : String
  deriving DecidableEq, Repr

/-- BackupWorkspace (manager_ee.go): resolve the pod (no phase restriction),
connect to the daemon and invoke its backup RPC, passing its URL or error
through unchanged. -/
def BackupWorkspace (m : ManagerEnv) (req : BackupWorkspaceRequest) :
    Except WsError BackupWorkspaceResponse × List Effect :=
  match m.findWorkspacePod req.id with
  | .notFound =>
    (.error (.grpc .notFound ("workspace pod for " ++ req.id ++ " does not exist")), [])
  | .failed e =>
    (.error (.grpc .internal ("cannot get workspace pod: " ++ e)), [])
  | .found pod =>
    match m.connectToWorkspaceDaemon pod with
    | .error e =>
      (.error (.grpc .unavailable ("cannot connect to workspace daemon: " ++ e)),
        [Effect.connectDaemon pod.name])
    | .ok sync =>
      match sync.backupWorkspace req.id with
      | .error e => (.error e, [Effect.connectDaemon pod.name, Effect.daemonBackup req.id])
      | .ok url =>
        (.ok ⟨url⟩, [Effect.connectDaemon pod.name, Effect.daemonBackup req.id])

/-- Decimal digit list of a natural number, least significant first, with the
zero padded to `[0]` — mirrors what `Nat.repr` prints. -/
def decDigits (n : Nat) : List Nat :=
  if n = 0 then [0] else Nat.digits 10 n

/-- A concrete pod used to instantiate the theorems: carries the PVC feature
label, a workspace class label and the workspace-ID annotation. -/
def basePod : Pod :=
  ⟨"ws-pod-w1", [(pvcWorkspaceFeatureLabel, "true"), (workspaceClassLabel, "default")],
    [( workspaceIDAnnotation, "w1")]⟩

/-- A concrete pod without the PVC feature label (daemon-mediated strategy). -/
def daemonPod : Pod :=
  ⟨"ws-pod-w1", [(workspaceClassLabel, "default")], [( workspaceIDAnnotation, "w1")]⟩

/-- A concrete healthy environment, parameterized by the derived phase and the
pod the cluster returns: every helper succeeds. -/
def mkEnv (phase : WorkspacePhase) (pod : Pod) : ManagerEnv where
  findWorkspacePod := fun _ => .found pod
  getWorkspaceObjects := fun p => .ok ⟨p⟩
  getWorkspaceStatus := fun _ => .ok ⟨phase⟩
  workspaceClasses := fun _ => some ⟨⟨"csi-snapclass"⟩⟩
  createWorkspaceSnapshotFromPVC := fun _ _ _ _ _ => none
  waitForWorkspaceVolumeSnapshotReady := fun _ => .ok true
  connectToWorkspaceDaemon := fun _ =>
    .ok ⟨fun i _ => .ok ("backup://" ++ i ++ "/1"), fun i => .ok ("backup://" ++ i ++ "/1")⟩
  markWorkspace := fun _ _ _ => none
  checkWorkspaceVolumeSnapshotIsReady := fun _ => .ok true
  parseDuration := fun _ => none
  nowUnixNano := 1700000000000000000

/-- A concrete environment in which no workspace has a backing pod and every
annotation mark consequently fails. -/
def envNoPod : ManagerEnv :=
  { mkEnv WorkspacePhase.RUNNING basePod with
    findWorkspacePod := fun _ => .notFound
    markWorkspace := fun _ _ _ => some "pod w2 not found" }

/-- A concrete environment whose duration parser rejects every string. -/
def envBadDuration : ManagerEnv :=
  { mkEnv WorkspacePhase.RUNNING basePod with
    parseDuration := fun _ => some "time: invalid duration" }

/-- A concrete environment whose readiness wait fails with a deadline error. -/
def envWaitErr : ManagerEnv :=
  { mkEnv WorkspacePhase.RUNNING basePod with
    waitForWorkspaceVolumeSnapshotReady := fun _ => .error "context deadline exceeded" }

/-- A concrete environment whose readiness wait returns without the snapshot
becoming ready. -/
def envWaitNotReady : ManagerEnv :=
  { mkEnv WorkspacePhase.RUNNING basePod with
    waitForWorkspaceVolumeSnapshotReady := fun _ => .ok false }

/-- A concrete environment whose daemon connection cannot be established. -/
def envDaemonDown : ManagerEnv :=
  { mkEnv WorkspacePhase.RUNNING daemonPod with
    connectToWorkspaceDaemon := fun _ => .error "dial tcp: connection refused" }

/-- A concrete environment whose daemon RPCs fail with a structured gRPC error. -/
def envDaemonRemoteErr : ManagerEnv :=
  { mkEnv WorkspacePhase.RUNNING daemonPod with
    connectToWorkspaceDaemon := fun _ =>
      .ok ⟨fun _ _ => .error (.grpc .internal "backup failed"),
           fun _ => .error (.grpc .internal "backup failed")⟩ }

/-- A concrete environment in which the volume-snapshot readiness check
reports the snapshot as unknown. -/
def envSnapUnknown : ManagerEnv :=
  { mkEnv WorkspacePhase.RUNNING basePod with
    checkWorkspaceVolumeSnapshotIsReady := fun _ =>
      .error (.grpc .notFound "volumesnapshots.snapshot.storage.k8s.io not found") }

/-- A concrete environment in which the volume snapshot exists but is not yet
ready. -/
def envSnapNotReady : ManagerEnv :=
  { mkEnv WorkspacePhase.RUNNING basePod with
    checkWorkspaceVolumeSnapshotIsReady := fun _ => .ok false }

/-- A concrete environment in which the readiness check fails with a
non-NotFound error. -/
def envSnapCheckFail : ManagerEnv :=
  { mkEnv WorkspacePhase.RUNNING basePod with
    checkWorkspaceVolumeSnapshotIsReady := fun _ => .error (.plain "etcd timeout") }

theorem toDigitsCore_eq_digits (f : Nat) : ∀ (n : Nat) (acc : List Char), 0 < n → n < f →
    Nat.toDigitsCore 10 f n acc = ((Nat.digits 10 n).map Nat.digitChar).reverse ++ acc := by
  induction f with
  | zero => intro n acc h1 h2; omega
  | succ f ih =>
    intro n acc h1 h2
    rw [Nat.digits_def' (by norm_num : (1:ℕ) < 10) h1]
    simp only [Nat.toDigitsCore]
    by_cases hd : n / 10 = 0
    · simp [hd, Nat.digits_zero]
    · have hlt : n / 10 < f := by
        have := Nat.div_lt_self h1 (by norm_num : 1 < 10)
        omega
      have hpos : 0 < n / 10 := Nat.pos_of_ne_zero hd
      simp only [hd, if_false]
      rw [ih (n / 10) ((n % 10).digitChar :: acc) hpos hlt]
      simp [List.append_assoc]

theorem repr_eq_decDigits (n : Nat) :
    Nat.repr n = (((decDigits n).map Nat.digitChar).reverse).asString := by
  by_cases h : n = 0
  · subst h; rfl
  · have hpos : 0 < n := Nat.pos_of_ne_zero h
    unfold Nat.repr Nat.toDigits decDigits
    rw [toDigitsCore_eq_digits (n + 1) n [] hpos (by omega)]
    simp [h]

theorem digitChar_inj_lt : ∀ a < 10, ∀ b < 10, Nat.digitChar a = Nat.digitChar b → a = b := by
  decide

theorem map_digitChar_inj : ∀ (l1 l2 : List Nat), (∀ d ∈ l1, d < 10) → (∀ d ∈ l2, d < 10) →
    l1.map Nat.digitChar = l2.map Nat.digitChar → l1 = l2 := by
  intro l1
  induction l1 with
  | nil => intro l2 _ _ h; cases l2 <;> simp_all
  | cons a l1 ih =>
    intro l2 h1 h2 h
    cases l2 with
    | nil => simp_all
    | cons b l2 =>
      simp only [List.map_cons, List.cons.injEq] at h
      have ha : a = b := digitChar_inj_lt a (h1 a (by simp)) b (h2 b (by simp)) h.1
      have : l1 = l2 := ih l2 (fun d hd => h1 d (by simp [hd])) (fun d hd => h2 d (by simp [hd])) h.2
      simp [ha, this]

theorem decDigits_lt (n : Nat) : ∀ d ∈ decDigits n, d < 10 := by
  intro d hd
  unfold decDigits at hd
  by_cases h : n = 0
  · simp [h] at hd; omega
  · simp only [h, if_false] at hd
    exact Nat.digits_lt_base (by norm_num) hd

theorem decDigits_inj {m n : Nat} (h : decDigits m = decDigits n) : m = n := by
  unfold decDigits at h
  by_cases hm : m = 0 <;> by_cases hn : n = 0
  · omega
  · exfalso
    simp only [hm, if_true, hn, if_false] at h
    have := Nat.ofDigits_digits 10 n
    rw [← h] at this
    simp [Nat.ofDigits] at this
    omega
  · exfalso
    simp only [hm, if_false, hn, if_true] at h
    have := Nat.ofDigits_digits 10 m
    rw [h] at this
    simp [Nat.ofDigits] at this
    omega
  · simp only [hm, if_false, hn, if_false] at h
    have hm' := Nat.ofDigits_digits 10 m
    have hn' := Nat.ofDigits_digits 10 n
    rw [← hm', ← hn', h]

theorem repr_inj {m n : Nat} (h : Nat.repr m = Nat.repr n) : m = n := by
  rw [repr_eq_decDigits, repr_eq_decDigits] at h
  have hdata := congrArg String.data h
  simp only [List.asString] at hdata
  have hrev : ((decDigits m).map Nat.digitChar).reverse = ((decDigits n).map Nat.digitChar).reverse := hdata
  have hmap := List.reverse_injective hrev
  exact decDigits_inj (map_digitChar_inj _ _ (decDigits_lt m) (decDigits_lt n) hmap)

theorem snapshotName_inj {w : String} {t1 t2 : Nat}
    (h : snapshotName w t1 = snapshotName w t2) : t1 = t2 := by
  unfold snapshotName at h
  have hdata := congrArg String.data h
  simp only [String.data_append, List.append_assoc] at hdata
  have h1 := List.append_cancel_left hdata
  have h2 := List.append_cancel_left h1
  have h3 := List.append_cancel_left h2
  exact repr_inj (String.ext h3)

/-- C6: for every existing workspace whose derived phase is not RUNNING,
TakeSnapshot returns a FailedPrecondition error; the phase check runs against
the status derived at the moment of the call (after resolving the pod), and no
snapshot strategy is invoked (the effect trace is empty). -/
theorem c6_takeSnapshot_requires_running (m : ManagerEnv) (id : String) (ri : Bool)
    (pod : Pod) (wso : WorkspaceObjects) (sts : WorkspaceStatus)
    (hfind : m.findWorkspacePod id = .found pod)
    (hobj : m.getWorkspaceObjects pod = .ok wso)
    (hsts : m.getWorkspaceStatus wso = .ok sts)
    (hph : sts.phase ≠ WorkspacePhase.RUNNING) :
    TakeSnapshot m ⟨id, ri⟩ =
      (.error (.grpc .failedPrecondition "can only take snapshots of running workspaces"), []) := by
  simp only [TakeSnapshot, hfind, hobj, hsts, hph, if_pos, ne_eq, not_false_eq_true, if_true]

/-- Witness for C6 at a concrete STOPPING workspace. -/
theorem c6_witness :
    TakeSnapshot (mkEnv WorkspacePhase.STOPPING basePod) ⟨"w1", true⟩ =
      (.error (.grpc .failedPrecondition "can only take snapshots of running workspaces"), []) :=
  c6_takeSnapshot_requires_running (mkEnv WorkspacePhase.STOPPING basePod) "w1" true
    basePod ⟨basePod⟩ ⟨WorkspacePhase.STOPPING⟩ rfl rfl rfl (by decide)

/-- C10: ControlAdmission checks the phase precondition before validating the
admission level: on a STOPPING or STOPPED workspace an unrecognized level
value still yields FailedPrecondition (not InvalidArgument), with no mark. -/
theorem c10_phase_checked_before_level (m : ManagerEnv) (id : String) (level : Int)
    (pod : Pod) (wso : WorkspaceObjects) (sts : WorkspaceStatus)
    (hfind : m.findWorkspacePod id = .found pod)
    (hobj : m.getWorkspaceObjects pod = .ok wso)
    (hsts : m.getWorkspaceStatus wso = .ok sts)
    (hph : sts.phase = WorkspacePhase.STOPPING ∨ sts.phase = WorkspacePhase.STOPPED)
    (hlevel : AdmissionLevel_name level = none) :
    ControlAdmission m ⟨id, level⟩ =
      (.error (.grpc .failedPrecondition "cannot control admission of stopping workspaces"), []) := by
  simp only [ControlAdmission, hfind, hobj, hsts, if_pos hph]

/-- Witness for C10: STOPPED workspace, unrecognized level 42. -/
theorem c10_witness :
    ControlAdmission (mkEnv WorkspacePhase.STOPPED basePod) ⟨"w1", 42⟩ =
      (.error (.grpc .failedPrecondition "cannot control admission of stopping workspaces"), []) :=
  c10_phase_checked_before_level (mkEnv WorkspacePhase.STOPPED basePod) "w1" 42
    basePod ⟨basePod⟩ ⟨WorkspacePhase.STOPPED⟩ rfl rfl rfl (by decide) (by decide)

/-- C4: ControlAdmission on an existing workspace returns FailedPrecondition
and writes nothing in phase STOPPING or STOPPED; in phase RUNNING or CREATING
with a recognized level whose mark write succeeds, it succeeds and the single
annotation written is the admission annotation set to the lower-cased level
name. -/
theorem c4_controlAdmission_phases (m : ManagerEnv) (id : String) (level : Int)
    (pod : Pod) (wso : WorkspaceObjects) (sts : WorkspaceStatus)
    (hfind : m.findWorkspacePod id = .found pod)
    (hobj : m.getWorkspaceObjects pod = .ok wso)
    (hsts : m.getWorkspaceStatus wso = .ok sts) :
    ((sts.phase = WorkspacePhase.STOPPING ∨ sts.phase = WorkspacePhase.STOPPED) →
      ControlAdmission m ⟨id, level⟩ =
        (.error (.grpc .failedPrecondition "cannot control admission of stopping workspaces"), [])) ∧
    (∀ val, (sts.phase = WorkspacePhase.RUNNING ∨ sts.phase = WorkspacePhase.CREATING) →
      AdmissionLevel_name level = some val →
      m.markWorkspace id workspaceAdmissionAnnotation (stringToLower val) = none →
      ControlAdmission m ⟨id, level⟩ =
        (.ok (), [Effect.mark id workspaceAdmissionAnnotation (stringToLower val)])) := by
  constructor
  · intro hph
    simp only [ControlAdmission, hfind, hobj, hsts, if_pos hph]
  · intro val hph hname hmark
    have hnot : ¬(sts.phase = WorkspacePhase.STOPPING ∨ sts.phase = WorkspacePhase.STOPPED) := by
      rcases hph with h | h <;> simp [h]
    simp only [ControlAdmission, hfind, hobj, hsts, if_neg hnot, hname, hmark]

/-- Witness for C4 at a RUNNING workspace and level Everyone (wire value 1):
the annotation written is the lower-cased name. -/
theorem c4_witness :
    ControlAdmission (mkEnv WorkspacePhase.RUNNING basePod) ⟨"w1", 1⟩ =
      (.ok (), [Effect.mark "w1" workspaceAdmissionAnnotation "everyone"]) := by
  have h := (c4_controlAdmission_phases (mkEnv WorkspacePhase.RUNNING basePod) "w1" 1
    basePod ⟨basePod⟩ ⟨WorkspacePhase.RUNNING⟩ rfl rfl rfl).2 "EVERYONE"
    (Or.inl rfl) rfl rfl
  rw [show (stringToLower "EVERYONE") = "everyone" by decide] at h
  exact h

/-- C1 counterexample: for the workspace ID `w2`, which has no backing pod in
`envNoPod`, SetTimeout with the parseable duration `10m` does attempt the
annotation mark, and the error it returns is a plain wrapped error, not a
NotFound status error — refuting the claim that every operation returns
NotFound without attempting any mutation. -/
theorem c1_counterexample :
    (SetTimeout envNoPod ⟨"w2", "10m"⟩).2 = [Effect.mark "w2" customTimeoutAnnotation "10m"] ∧
    (SetTimeout envNoPod ⟨"w2", "10m"⟩).1 =
      .error (.plain "cannot set workspace timeout: pod w2 not found") ∧
    WsError.statusCode (.plain "cannot set workspace timeout: pod w2 not found") ≠
      Code.notFound := by
  refine ⟨rfl, rfl, by decide⟩

/-- C1 (amended): for every workspace ID with no backing pod, TakeSnapshot,
BackupWorkspace and ControlAdmission return a NotFound status error with an
empty effect trace (no mutation, the daemon never contacted); SetTimeout,
which performs no pod lookup, still attempts exactly the annotation mark once
the duration parses. -/
theorem c1_no_pod (m : ManagerEnv) (id : String) (ri : Bool) (level : Int) (dur : String)
    (hfind : m.findWorkspacePod id = .notFound)
    (hdur : m.parseDuration dur = none) :
    TakeSnapshot m ⟨id, ri⟩ =
      (.error (.grpc .notFound ("workspace " ++ id ++ " does not exist")), []) ∧
    BackupWorkspace m ⟨id⟩ =
      (.error (.grpc .notFound ("workspace pod for " ++ id ++ " does not exist")), []) ∧
    ControlAdmission m ⟨id, level⟩ =
      (.error (.grpc .notFound ("workspace " ++ id ++ " does not exist")), []) ∧
    (SetTimeout m ⟨id, dur⟩).2 = [Effect.mark id customTimeoutAnnotation dur] := by
  refine ⟨?_, ?_, ?_, ?_⟩
  · simp only [TakeSnapshot, hfind]
  · simp only [BackupWorkspace, hfind]
  · simp only [ControlAdmission, hfind]
  · cases hmark : m.markWorkspace id customTimeoutAnnotation dur <;>
      simp only [SetTimeout, hdur, hmark]

/-- Witness for C1 at the concrete no-pod environment and workspace `w2`. -/
theorem c1_witness :
    TakeSnapshot envNoPod ⟨"w2", true⟩ =
      (.error (.grpc .notFound "workspace w2 does not exist"), []) ∧
    BackupWorkspace envNoPod ⟨"w2"⟩ =
      (.error (.grpc .notFound "workspace pod for w2 does not exist"), []) ∧
    ControlAdmission envNoPod ⟨"w2", 1⟩ =
      (.error (.grpc .notFound "workspace w2 does not exist"), []) ∧
    (SetTimeout envNoPod ⟨"w2", "10m"⟩).2 = [Effect.mark "w2" customTimeoutAnnotation "10m"] :=
  c1_no_pod envNoPod "w2" true 1 "10m" rfl rfl

/-- C2 counterexample: on a STOPPING workspace, ControlAdmission with the
unrecognized level value 99 returns FailedPrecondition, not InvalidArgument —
refuting the claim for the phases STOPPING and STOPPED. -/
theorem c2_counterexample :
    AdmissionLevel_name 99 = none ∧
    ControlAdmission (mkEnv WorkspacePhase.STOPPING basePod) ⟨"w1", 99⟩ =
      (.error (.grpc .failedPrecondition "cannot control admission of stopping workspaces"), []) ∧
    Code.failedPrecondition ≠ Code.invalidArgument :=
  ⟨rfl, rfl, by decide⟩

/-- C2 (amended): on an existing workspace whose derived phase is not STOPPING
and not STOPPED (in particular RUNNING or CREATING), ControlAdmission with an
unrecognized level value returns InvalidArgument and writes nothing; in
STOPPING or STOPPED the phase check fires first and yields FailedPrecondition
instead. -/
theorem c2_invalid_level (m : ManagerEnv) (id : String) (level : Int)
    (pod : Pod) (wso : WorkspaceObjects) (sts : WorkspaceStatus)
    (hfind : m.findWorkspacePod id = .found pod)
    (hobj : m.getWorkspaceObjects pod = .ok wso)
    (hsts : m.getWorkspaceStatus wso = .ok sts)
    (hph : ¬(sts.phase = WorkspacePhase.STOPPING ∨ sts.phase = WorkspacePhase.STOPPED))
    (hlevel : AdmissionLevel_name level = none) :
    ControlAdmission m ⟨id, level⟩ =
      (.error (.grpc .invalidArgument "invalid admission level"), []) := by
  simp only [ControlAdmission, hfind, hobj, hsts, if_neg hph, hlevel]

/-- Witness for C2 (amended) at a RUNNING workspace and level 99. -/
theorem c2_witness :
    ControlAdmission (mkEnv WorkspacePhase.RUNNING basePod) ⟨"w1", 99⟩ =
      (.error (.grpc .invalidArgument "invalid admission level"), []) :=
  c2_invalid_level (mkEnv WorkspacePhase.RUNNING basePod) "w1" 99
    basePod ⟨basePod⟩ ⟨WorkspacePhase.RUNNING⟩ rfl rfl rfl (by decide) (by decide)

/-- C3 counterexample: SetTimeout on an unparsable duration returns a plain
wrapped error — whose gRPC classification is Unknown, not InvalidArgument —
refuting the claimed InvalidArgument classification (the no-write half of the
claim does hold: the effect trace is empty). -/
theorem c3_counterexample :
    SetTimeout envBadDuration ⟨"w1", "not-a-duration"⟩ =
      (.error (.plain "invalid duration \"not-a-duration\": time: invalid duration"), []) ∧
    WsError.statusCode (.plain "invalid duration \"not-a-duration\": time: invalid duration") =
      Code.unknown ∧
    Code.unknown ≠ Code.invalidArgument :=
  ⟨rfl, rfl, by decide⟩

/-- C3 (amended): for every request whose duration string does not parse,
SetTimeout returns an error and performs no annotation write; the error is a
plain wrapped one (gRPC classification Unknown), not an InvalidArgument status
error. -/
theorem c3_bad_duration (m : ManagerEnv) (id : String) (dur : String) (e : String)
    (hdur : m.parseDuration dur = some e) :
    SetTimeout m ⟨id, dur⟩ =
      (.error (.plain ("invalid duration \"" ++ dur ++ "\": " ++ e)), []) ∧
    WsError.statusCode (.plain ("invalid duration \"" ++ dur ++ "\": " ++ e)) =
      Code.unknown := by
  refine ⟨?_, rfl⟩
  simp only [SetTimeout, hdur]

/-- Witness for C3 (amended) at the concrete rejecting parser. -/
theorem c3_witness :
    SetTimeout envBadDuration ⟨"w1", "not-a-duration"⟩ =
      (.error (.plain "invalid duration \"not-a-duration\": time: invalid duration"), []) ∧
    WsError.statusCode (.plain "invalid duration \"not-a-duration\": time: invalid duration") =
      Code.unknown :=
  c3_bad_duration envBadDuration "w1" "not-a-duration" "time: invalid duration" rfl

theorem takeSnapshot_pvc_path (m : ManagerEnv) (id : String) (ri : Bool)
    (pod : Pod) (wso : WorkspaceObjects) (sts : WorkspaceStatus)
    (hfind : m.findWorkspacePod id = .found pod)
    (hobj : m.getWorkspaceObjects pod = .ok wso)
    (hsts : m.getWorkspaceStatus wso = .ok sts)
    (hph : sts.phase = WorkspacePhase.RUNNING)
    (hpvc : (lookupKey wso.pod.labels pvcWorkspaceFeatureLabel).isSome = true) :
    TakeSnapshot m ⟨id, ri⟩ =
      (match m.createWorkspaceSnapshotFromPVC wso.pod.name
          (snapshotName wso.workspaceID m.nowUnixNano) (resolveSnapshotClass m wso.pod)
          wso.workspaceID wso.pod.labels with
       | some e =>
         (.error (.grpc .internal ("cannot create volume snapshot from pvc: " ++ e)),
           [Effect.createVolumeSnapshot wso.pod.name
             (snapshotName wso.workspaceID m.nowUnixNano) (resolveSnapshotClass m wso.pod)
             wso.workspaceID wso.pod.labels])
       | none =>
         if !ri then
           match m.waitForWorkspaceVolumeSnapshotReady
               (snapshotName wso.workspaceID m.nowUnixNano) with
           | .error e =>
             (.error (.grpc .internal ("cannot wait for volume snapshot to be ready: " ++ e)),
               [Effect.createVolumeSnapshot wso.pod.name
                 (snapshotName wso.workspaceID m.nowUnixNano) (resolveSnapshotClass m wso.pod)
                 wso.workspaceID wso.pod.labels,
                Effect.waitForSnapshotReady (snapshotName wso.workspaceID m.nowUnixNano)])
           | .ok ready =>
             if !ready then
               (.error (.grpc .internal "volume snapshot is not ready"),
                 [Effect.createVolumeSnapshot wso.pod.name
                   (snapshotName wso.workspaceID m.nowUnixNano) (resolveSnapshotClass m wso.pod)
                   wso.workspaceID wso.pod.labels,
                  Effect.waitForSnapshotReady (snapshotName wso.workspaceID m.nowUnixNano)])
             else
               (.ok ⟨snapshotName wso.workspaceID m.nowUnixNano⟩,
                 [Effect.createVolumeSnapshot wso.pod.name
                   (snapshotName wso.workspaceID m.nowUnixNano) (resolveSnapshotClass m wso.pod)
                   wso.workspaceID wso.pod.labels,
                  Effect.waitForSnapshotReady (snapshotName wso.workspaceID m.nowUnixNano)])
         else
           (.ok ⟨snapshotName wso.workspaceID m.nowUnixNano⟩,
             [Effect.createVolumeSnapshot wso.pod.name
               (snapshotName wso.workspaceID m.nowUnixNano) (resolveSnapshotClass m wso.pod)
               wso.workspaceID wso.pod.labels])) := by
  have hngr : ¬(sts.phase ≠ WorkspacePhase.RUNNING) := by simp [hph]
  simp only [TakeSnapshot, hfind, hobj, hsts, if_neg hngr, hpvc, if_true,
    List.append_eq, List.cons_append, List.nil_append]

/-- C5: on a PVC-feature-labeled RUNNING workspace, the volume-snapshot name
TakeSnapshot generates is the string snapshot-workspaceID-nanotimestamp: the
created object (first effect) carries exactly that name, any success response
returns it unchanged as the URL, and two calls reading distinct clock values
generate distinct names. -/
theorem c5_snapshot_name_unique (m : ManagerEnv) (id : String) (ri : Bool)
    (pod : Pod) (wso : WorkspaceObjects) (sts : WorkspaceStatus)
    (hfind : m.findWorkspacePod id = .found pod)
    (hobj : m.getWorkspaceObjects pod = .ok wso)
    (hsts : m.getWorkspaceStatus wso = .ok sts)
    (hph : sts.phase = WorkspacePhase.RUNNING)
    (hpvc : (lookupKey wso.pod.labels pvcWorkspaceFeatureLabel).isSome = true) :
    (TakeSnapshot m ⟨id, ri⟩).2.head? = some (Effect.createVolumeSnapshot wso.pod.name
      (snapshotName wso.workspaceID m.nowUnixNano) (resolveSnapshotClass m wso.pod)
      wso.workspaceID wso.pod.labels) ∧
    (∀ resp, (TakeSnapshot m ⟨id, ri⟩).1 = .ok resp →
      resp.url = snapshotName wso.workspaceID m.nowUnixNano) ∧
    (∀ t1 t2 : Nat, t1 ≠ t2 →
      snapshotName wso.workspaceID t1 ≠ snapshotName wso.workspaceID t2) := by
  rw [takeSnapshot_pvc_path m id ri pod wso sts hfind hobj hsts hph hpvc]
  refine ⟨?_, ?_, fun t1 t2 hne heq => hne (snapshotName_inj heq)⟩
  · split
    · rfl
    · split
      · split <;> first | rfl | split <;> rfl
      · rfl
  · intro resp hresp
    split at hresp
    · simp at hresp
    · split at hresp
      · split at hresp
        · simp at hresp
        · split at hresp
          · simp at hresp
          · simp only [Except.ok.injEq] at hresp
            rw [← hresp]
      · simp only [Except.ok.injEq] at hresp
        rw [← hresp]

/-- Witness for C5 at a concrete RUNNING PVC workspace: the created snapshot
is named from the workspace ID and the clock value, and names from the two
distinct clock values 1 and 2 differ. -/
theorem c5_witness :
    (TakeSnapshot (mkEnv WorkspacePhase.RUNNING basePod) ⟨"w1", true⟩).2.head? =
      some (Effect.createVolumeSnapshot "ws-pod-w1" (snapshotName "w1" 1700000000000000000)
        "csi-snapclass" "w1" [(pvcWorkspaceFeatureLabel, "true"), (workspaceClassLabel, "default")]) ∧
    snapshotName "w1" 1 ≠ snapshotName "w1" 2 := by
  have h := c5_snapshot_name_unique (mkEnv WorkspacePhase.RUNNING basePod) "w1" true
    basePod ⟨basePod⟩ ⟨WorkspacePhase.RUNNING⟩ rfl rfl rfl rfl (by decide)
  exact ⟨h.1, h.2.2 1 2 (by decide)⟩

/-- C7: on a PVC-backed RUNNING workspace with synchronous completion
requested (ReturnImmediately = false) and the snapshot object created, a
readiness wait that errors or ends without readiness yields an Internal
error — never a success response — and a success response is returned only
when the wait reported the snapshot ready. -/
theorem c7_wait_gates_success (m : ManagerEnv) (id : String)
    (pod : Pod) (wso : WorkspaceObjects) (sts : WorkspaceStatus)
    (hfind : m.findWorkspacePod id = .found pod)
    (hobj : m.getWorkspaceObjects pod = .ok wso)
    (hsts : m.getWorkspaceStatus wso = .ok sts)
    (hph : sts.phase = WorkspacePhase.RUNNING)
    (hpvc : (lookupKey wso.pod.labels pvcWorkspaceFeatureLabel).isSome = true)
    (hcreate : m.createWorkspaceSnapshotFromPVC wso.pod.name
      (snapshotName wso.workspaceID m.nowUnixNano) (resolveSnapshotClass m wso.pod)
      wso.workspaceID wso.pod.labels = none) :
    (∀ e, m.waitForWorkspaceVolumeSnapshotReady (snapshotName wso.workspaceID m.nowUnixNano) =
        .error e →
      (TakeSnapshot m ⟨id, false⟩).1 =
        .error (.grpc .internal ("cannot wait for volume snapshot to be ready: " ++ e))) ∧
    (m.waitForWorkspaceVolumeSnapshotReady (snapshotName wso.workspaceID m.nowUnixNano) =
        .ok false →
      (TakeSnapshot m ⟨id, false⟩).1 = .error (.grpc .internal "volume snapshot is not ready")) ∧
    (∀ resp, (TakeSnapshot m ⟨id, false⟩).1 = .ok resp →
      m.waitForWorkspaceVolumeSnapshotReady (snapshotName wso.workspaceID m.nowUnixNano) =
        .ok true) := by
  rw [takeSnapshot_pvc_path m id false pod wso sts hfind hobj hsts hph hpvc]
  simp only [hcreate, Bool.not_false, if_true]
  refine ⟨?_, ?_, ?_⟩
  · intro e he
    simp [he]
  · intro h0
    simp [h0]
  · intro resp hresp
    cases hw : m.waitForWorkspaceVolumeSnapshotReady (snapshotName wso.workspaceID m.nowUnixNano) with
    | error e => rw [hw] at hresp; simp at hresp
    | ok ready =>
      rw [hw] at hresp
      cases ready with
      | false => simp at hresp
      | true => rfl

/-- Witness for C7: with a wait that fails on a deadline, the synchronous
TakeSnapshot returns Internal, not success. -/
theorem c7_witness :
    (TakeSnapshot envWaitErr ⟨"w1", false⟩).1 =
      .error (.grpc .internal
        "cannot wait for volume snapshot to be ready: context deadline exceeded") :=
  (c7_wait_gates_success envWaitErr "w1" basePod ⟨basePod⟩ ⟨WorkspacePhase.RUNNING⟩
    rfl rfl rfl rfl (by decide) rfl).1 "context deadline exceeded" rfl

/-- C8: in the daemon-mediated path of TakeSnapshot (no PVC feature label) and
in BackupWorkspace, a connection failure is classified Unavailable, an error
from the daemon RPC itself is returned to the caller verbatim, and on success
the daemon's URL is passed through unchanged. -/
theorem c8_daemon_error_classification (m : ManagerEnv) (id : String) (ri : Bool)
    (pod : Pod) (wso : WorkspaceObjects) (sts : WorkspaceStatus)
    (hfind : m.findWorkspacePod id = .found pod)
    (hobj : m.getWorkspaceObjects pod = .ok wso)
    (hsts : m.getWorkspaceStatus wso = .ok sts)
    (hph : sts.phase = WorkspacePhase.RUNNING)
    (hpvc : (lookupKey wso.pod.labels pvcWorkspaceFeatureLabel).isSome = false) :
    (∀ e, m.connectToWorkspaceDaemon pod = .error e →
      (TakeSnapshot m ⟨id, ri⟩).1 =
        .error (.grpc .unavailable ("cannot connect to workspace daemon: " ++ e)) ∧
      (BackupWorkspace m ⟨id⟩).1 =
        .error (.grpc .unavailable ("cannot connect to workspace daemon: " ++ e))) ∧
    (∀ conn, m.connectToWorkspaceDaemon pod = .ok conn →
      (∀ de, conn.takeSnapshot id ri = .error de →
        (TakeSnapshot m ⟨id, ri⟩).1 = .error de) ∧
      (∀ url, conn.takeSnapshot id ri = .ok url →
        (TakeSnapshot m ⟨id, ri⟩).1 = .ok ⟨url⟩) ∧
      (∀ de, conn.backupWorkspace id = .error de →
        (BackupWorkspace m ⟨id⟩).1 = .error de) ∧
      (∀ url, conn.backupWorkspace id = .ok url →
        (BackupWorkspace m ⟨id⟩).1 = .ok ⟨url⟩)) := by
  have hngr : ¬(sts.phase ≠ WorkspacePhase.RUNNING) := by simp [hph]
  constructor
  · intro e he
    constructor
    · simp only [TakeSnapshot, hfind, hobj, hsts, if_neg hngr, hpvc, Bool.false_eq_true,
        if_false, he]
    · simp only [BackupWorkspace, hfind, he]
  · intro conn hc
    refine ⟨?_, ?_, ?_, ?_⟩
    · intro de hde
      simp only [TakeSnapshot, hfind, hobj, hsts, if_neg hngr, hpvc, Bool.false_eq_true,
        if_false, hc, hde]
    · intro url hurl
      simp only [TakeSnapshot, hfind, hobj, hsts, if_neg hngr, hpvc, Bool.false_eq_true,
        if_false, hc, hurl]
    · intro de hde
      simp only [BackupWorkspace, hfind, hc, hde]
    · intro url hurl
      simp only [BackupWorkspace, hfind, hc, hurl]

/-- Witness for C8: a daemon whose RPCs fail with a structured gRPC error sees
that exact error surface from both TakeSnapshot and BackupWorkspace. -/
theorem c8_witness :
    (TakeSnapshot envDaemonRemoteErr ⟨"w1", true⟩).1 =
      .error (.grpc .internal "backup failed") ∧
    (BackupWorkspace envDaemonRemoteErr ⟨"w1"⟩).1 =
      .error (.grpc .internal "backup failed") := by
  have h := (c8_daemon_error_classification envDaemonRemoteErr "w1" true daemonPod
    ⟨daemonPod⟩ ⟨WorkspacePhase.RUNNING⟩ rfl rfl rfl rfl (by decide)).2
    ⟨fun _ _ => .error (.grpc .internal "backup failed"),
     fun _ => .error (.grpc .internal "backup failed")⟩ rfl
  exact ⟨h.1 (.grpc .internal "backup failed") rfl, h.2.2.1 (.grpc .internal "backup failed") rfl⟩

/-- C9: GetVolumeSnapshot is a readiness query with no workspace-phase
precondition and no side effect: a NotFound-coded check error surfaces as
NotFound, a check result of false or true is returned as Ready unchanged for
the same ID, and any other check failure is classified Internal. -/
theorem c9_getVolumeSnapshot_readiness (m : ManagerEnv) (id : String) :
    (∀ e, m.checkWorkspaceVolumeSnapshotIsReady id = .error e →
      e.statusCode = Code.notFound →
      GetVolumeSnapshot m ⟨id⟩ =
        .error (.grpc .notFound ("volume snapshot " ++ id ++ " does not exist"))) ∧
    (∀ e, m.checkWorkspaceVolumeSnapshotIsReady id = .error e →
      e.statusCode ≠ Code.notFound →
      GetVolumeSnapshot m ⟨id⟩ =
        .error (.grpc .internal
          ("cannot check if volume snapshot is ready: " ++ e.message))) ∧
    (∀ ready, m.checkWorkspaceVolumeSnapshotIsReady id = .ok ready →
      GetVolumeSnapshot m ⟨id⟩ = .ok ⟨id, ready⟩) := by
  refine ⟨?_, ?_, ?_⟩
  · intro e he hcode
    simp only [GetVolumeSnapshot, he, if_pos hcode]
  · intro e he hcode
    simp only [GetVolumeSnapshot, he, if_neg hcode]
  · intro ready hready
    simp only [GetVolumeSnapshot, hready]

/-- Witness for C9 at three concrete check behaviours: an unknown snapshot ID
yields NotFound, a not-yet-ready snapshot yields Ready = false, and a ready
one yields Ready = true. -/
theorem c9_witness :
    GetVolumeSnapshot envSnapUnknown ⟨"snap-1"⟩ =
      .error (.grpc .notFound "volume snapshot snap-1 does not exist") ∧
    GetVolumeSnapshot envSnapNotReady ⟨"snap-1"⟩ = .ok ⟨"snap-1", false⟩ ∧
    GetVolumeSnapshot (mkEnv WorkspacePhase.RUNNING basePod) ⟨"snap-1"⟩ =
      .ok ⟨"snap-1", true⟩ :=
  ⟨(c9_getVolumeSnapshot_readiness envSnapUnknown "snap-1").1
      (.grpc .notFound "volumesnapshots.snapshot.storage.k8s.io not found") rfl rfl,
   (c9_getVolumeSnapshot_readiness envSnapNotReady "snap-1").2.2 false rfl,
   (c9_getVolumeSnapshot_readiness (mkEnv WorkspacePhase.RUNNING basePod) "snap-1").2.2 true rfl⟩
